import Mathlib

/-!
Shallow embedding of `node/service/src/chain_spec.rs` (CORD chain
configurations).

Modelling choices:

* Key material.  The cryptographic derivation itself lives in external
  crates (`sp_core`).  Within this module a public key / account id is
  fully determined by the scheme and the derivation string (derivation is
  deterministic: same `(scheme, seed)` gives byte-identical keys), or by a
  hard-coded hex literal.  We therefore model byte sequences as the free
  algebra over these two generators; two byte sequences are equal exactly
  when they come from the same generator with the same arguments, which
  encodes the "collisions are cryptographically impossible" assumption the
  code itself relies on.
* The scheme of each role key follows the Rust type aliases:
  `BabeId` (`sp_consensus_babe::AuthorityId`), `ImOnlineId`
  (`pallet_im_online::sr25519::AuthorityId`) and `AuthorityDiscoveryId`
  (`sp_authority_discovery::AuthorityId`) are sr25519 public keys, and for
  sr25519 the derived `AccountId32` is the raw public-key bytes;
  `GrandpaId` (`sc_consensus_grandpa::AuthorityId`) is an ed25519 key.
* `GenesisConfig` keeps the fields the genesis assemblers actually set;
  subsystems initialised with `Default::default()` carry no information
  and are omitted.  `u128` balance amounts are modelled as `Nat`.
* The runtime wasm blob is a byte list; `cord_runtime::WASM_BINARY`
  (an `Option<&[u8]>`) becomes an explicit `Option (List Nat)` argument of
  the profile factories.
-/

inductive Scheme
  | Sr25519
  | Ed25519
  deriving DecidableEq, Repr

/-- A byte sequence of key material: either the public key derived from a
derivation string under a scheme, or a hard-coded hex literal
(`array_bytes::hex_n_into_unchecked` / `hex2array_unchecked`). -/
inductive Bytes
  | fromSeed (scheme : Scheme) (path : String)
  | fromHex (hex : String)
  deriving DecidableEq, Repr

instance : Inhabited Bytes := ⟨Bytes.fromHex ("")⟩

/-- Whether the byte sequence was produced by seed derivation (as opposed
to a hard-coded literal). -/
def Bytes.isSeedDerived : Bytes → Bool
  | .fromSeed _ _ => true
  | .fromHex _ => false

/-- `get_from_seed::<TPublic>(seed)`: derives the public key of
`TPublic::Pair::from_string("//{seed}", None)`; the scheme is the one of
`TPublic`. -/
def get_from_seed (scheme : Scheme) (seed : String) : Bytes :=
  Bytes.fromSeed scheme (("//") ++ seed)

/-- `get_account_id_from_seed::<sr25519::Public>(seed)`: the sr25519
public key for `seed`, identified as an account (for sr25519 the
`AccountId32` is the raw public-key bytes). -/
def get_account_id_from_seed (seed : String) : Bytes :=
  get_from_seed Scheme.Sr25519 seed

/-- The 6-tuple returned by `get_authority_keys`, with fields named after
the tuple positions:
`(stash account, controller account, BabeId, GrandpaId, ImOnlineId,
AuthorityDiscoveryId)`. -/
structure Authority where
  stash : Bytes
  controller : Bytes
  babe : Bytes
  grandpa : Bytes
  im_online : Bytes
  authority_discovery : Bytes
  deriving DecidableEq, Repr

/-- `get_authority_keys(seed)`. -/
def get_authority_keys (seed : String) : Authority :=
  { stash := get_account_id_from_seed (seed ++ ("//stash")),
    controller := get_account_id_from_seed seed,
    babe := get_from_seed Scheme.Sr25519 seed,
    grandpa := get_from_seed Scheme.Ed25519 seed,
    im_online := get_from_seed Scheme.Sr25519 seed,
    authority_discovery := get_from_seed Scheme.Sr25519 seed }

/-- `get_authority_keys_from_seed(seed)` just repackages
`get_authority_keys(seed)`. -/
def get_authority_keys_from_seed (seed : String) : Authority :=
  get_authority_keys seed

/-- `testnet_accounts()`. -/
def testnet_accounts : List Bytes :=
  [get_account_id_from_seed ("Alice"),
   get_account_id_from_seed ("Bob"),
   get_account_id_from_seed ("Charlie"),
   get_account_id_from_seed ("Alice//stash"),
   get_account_id_from_seed ("Bob//stash")]

/-- `author_accounts()`. -/
def author_accounts : List (Bytes × Unit) :=
  [(get_account_id_from_seed ("Alice"), ()),
   (get_account_id_from_seed ("Bob"), ()),
   (get_account_id_from_seed ("Charlie"), ())]

/-- The `SessionKeys` record of the runtime. -/
structure SessionKeys where
  babe : Bytes
  grandpa : Bytes
  im_online : Bytes
  authority_discovery : Bytes
  deriving DecidableEq, Repr

/-- `session_keys(babe, grandpa, im_online, authority_discovery)`. -/
def session_keys (babe : Bytes) (grandpa : Bytes) (im_online : Bytes)
    (authority_discovery : Bytes) : SessionKeys :=
  { babe := babe, grandpa := grandpa, im_online := im_online,
    authority_discovery := authority_discovery }

/-- Modelled from the spec: the base currency unit `WAY` comes from
`cord_runtime_constants::currency`, which is not under `src/`; the spec
fixes 12 decimal places for the token (`get_properties("WAY", 12, 29)`),
so one WAY is `10^12` base units.  The claims below depend only on `WAY`
being positive, not on its exact magnitude. -/
def WAY : Nat := 1000000000000

/-- The `STASH` constant local to `cord_staging_config_genesis`. -/
def STASH : Nat := 100 * WAY

/-- The `ENDOWMENT` constant local to `cord_staging_config_genesis`. -/
def ENDOWMENT_STAGING : Nat := 1110101200 * WAY

/-- The `ENDOWMENT` constant local to `cord_development_genesis`. -/
def ENDOWMENT_DEV : Nat := 50000 * WAY

/-- The credit-treasury account
(3wJcok3UjwBBecxbTtueZSrQG7KQdauaZTFrFC27pNez8F1E), the sole element of
the `credit_endowed_accounts` vector in `cord_development_genesis`. -/
def creditTreasuryAccount : Bytes :=
  Bytes.fromHex
    ("6d6f646c70792f63726469740000000000000000000000000000000000000000")

/-- The fields of `cord_runtime::GenesisConfig` that the genesis
assemblers in this module set to non-default values.  `session` entries
are `(stash account, controller account, SessionKeys)` triples. -/
structure GenesisConfig where
  system_code : List Nat
  balances : List (Bytes × Nat)
  indices : List Nat
  authority_manager : List Bytes
  session : List (Bytes × Bytes × SessionKeys)
  babe_epoch_config : Option String
  extrinsic_authorship : List (Bytes × Unit)
  council : List Bytes
  technical_committee : List Bytes
  sudo_key : Option Bytes
  deriving DecidableEq, Repr

/-- `cord_development_genesis(wasm_binary, initial_authorities, root_key,
endowed_accounts)`. -/
def cord_development_genesis (wasm_binary : List Nat)
    (initial_authorities : List Authority) (root_key : Bytes)
    (endowed_accounts : Option (List Bytes)) : GenesisConfig :=
  let endowed : List Bytes := endowed_accounts.getD testnet_accounts
  let credit_endowed_accounts : List Bytes := [creditTreasuryAccount]
  let num_endowed_accounts : Nat := endowed.length
  { system_code := wasm_binary,
    balances :=
      (endowed.map fun k => (k, ENDOWMENT_DEV))
        ++ (credit_endowed_accounts.map fun x => (x, ENDOWMENT_DEV)),
    indices := [],
    authority_manager := initial_authorities.map fun x => x.stash,
    session := initial_authorities.map fun x =>
      (x.stash, x.stash,
        session_keys x.babe x.grandpa x.im_online x.authority_discovery),
    babe_epoch_config := some ("BABE_GENESIS_EPOCH_CONFIG"),
    extrinsic_authorship := author_accounts,
    council := endowed.take ((num_endowed_accounts + 1) / 2),
    technical_committee := endowed.take ((num_endowed_accounts + 1) / 2),
    sudo_key := some root_key }

/-- `cord_development_config_genesis(wasm_binary)`. -/
def cord_development_config_genesis (wasm_binary : List Nat) : GenesisConfig :=
  cord_development_genesis wasm_binary
    [get_authority_keys_from_seed ("Alice")]
    (get_account_id_from_seed ("Alice"))
    none

/-- `cord_local_testnet_config_genesis(wasm_binary)`. -/
def cord_local_testnet_config_genesis (wasm_binary : List Nat) : GenesisConfig :=
  cord_development_genesis wasm_binary
    [get_authority_keys_from_seed ("Alice"),
     get_authority_keys_from_seed ("Bob")]
    (get_account_id_from_seed ("Alice"))
    none

/-- The `initial_authorities` vector hard-coded in
`cord_staging_config_genesis` (hoisted to a named constant; each entry
lists the hex literals in the order of the source tuple). -/
def staging_authorities : List Authority :=
  [{ stash := Bytes.fromHex
       ("6ab68082628ad0cfab68b1a00377170ff0dea4da06030cdd0c21a364ecbbc23b"),
     controller := Bytes.fromHex
       ("e41d2833b0b2f629e52a1bc1ace3079c395673bab26a14626b52c132b1fb5f1c"),
     babe := Bytes.fromHex
       ("b4a78c7de7cc60ed9a99029fcf487f40a3c4b5d5d78a7080387507a680ecb75e"),
     grandpa := Bytes.fromHex
       ("a5b6331fcff809f2b3419332678fd7b23a2a9320240ec36652337fe66a7337e0"),
     im_online := Bytes.fromHex
       ("962cc02d5dddbb2fc03bd8d511844ec47e798b3bc20d9daf7400b3d09533d518"),
     authority_discovery := Bytes.fromHex
       ("424af4547d488e65307cb14ffae20257b6e000658913f985824da5629afff13c") },
   { stash := Bytes.fromHex
       ("6efebd6198dc606b9074d7b3cd205261f36e143701a393ee880d29ebab55e92d"),
     controller := Bytes.fromHex
       ("186f6e121c08e7d2951f086cec0d6cf90e5b964a321175914ab5cb938cb51006"),
     babe := Bytes.fromHex
       ("c0d386cbb0f71fd8c22fe5724b02bb747a92d5241cfcb7ee81f2611491a4ec2f"),
     grandpa := Bytes.fromHex
       ("c9b4beb11d90a463dbf7dfc9a20d00538333429e1f93874bf3937de98e49939f"),
     im_online := Bytes.fromHex
       ("1e35b40417a5631c4762974cfd37128985aa626366d659eb37b7d19eca5ce676"),
     authority_discovery := Bytes.fromHex
       ("2ceb10e043fd67269c33758d0f65d245a2edcd293049b2cb78a807106643ed4c") },
   { stash := Bytes.fromHex
       ("0218be44e37405b283cd8e2ddf9fb73ec9bde2efc1b6567f2df55fc311bd4502"),
     controller := Bytes.fromHex
       ("c227e25885b199a75429484278681c276062e6b0639c75aba6d7eba622ae773d"),
     babe := Bytes.fromHex
       ("caf72037137297537c8e00dfe6259a640801d62c71a55d825d9994a26d743b7d"),
     grandpa := Bytes.fromHex
       ("f2079c41fe0f05f17138e205da91e90958212daf50605d99699baf081daae49d"),
     im_online := Bytes.fromHex
       ("924daa7728eab557869188f55b30fd8d4810cbd60ad3280c6562e0a8cad3943a"),
     authority_discovery := Bytes.fromHex
       ("3a39c922f4c6f6efe8893260b7d326964b12686c28b84a3b83b973c279215243") }]

/-- The `endowed_accounts` vector hard-coded in
`cord_staging_config_genesis` (hoisted to a named constant). -/
def staging_endowed_accounts : List Bytes :=
  [Bytes.fromHex
     ("903c379067968d241b2293784ff353d533837f77bcb72154e278ed06e1026a4b"),
   Bytes.fromHex
     ("eceb211f4c13366434d1b8d96f91099e4810e5ce7f195d2de489baf207ce4576"),
   Bytes.fromHex
     ("0684d85c98b64e8af9cb23db1e5e5ed9acc2b65c4dbefc6c3feaba8176da3f13"),
   Bytes.fromHex
     ("02c7c55d71abbaffb9590bcaf48ad687b783c035f9ad1e94208b776ff4a6e13f"),
   Bytes.fromHex
     ("ae2b60ce50c8a6a0f9f1eba33eec5106facfb366e946a59591633bd30c090d7d")]

/-- `cord_staging_config_genesis(wasm_binary)`. -/
def cord_staging_config_genesis (wasm_binary : List Nat) : GenesisConfig :=
  let initial_authorities : List Authority := staging_authorities
  let endowed_accounts : List Bytes := staging_endowed_accounts
  let num_endowed_accounts : Nat := endowed_accounts.length
  { system_code := wasm_binary,
    balances :=
      (endowed_accounts.map fun k => (k, ENDOWMENT_STAGING))
        ++ (initial_authorities.map fun x => (x.stash, STASH)),
    indices := [],
    authority_manager := initial_authorities.map fun x => x.stash,
    session := initial_authorities.map fun x =>
      (x.stash, x.stash,
        session_keys x.babe x.grandpa x.im_online x.authority_discovery),
    babe_epoch_config := some ("BABE_GENESIS_EPOCH_CONFIG"),
    extrinsic_authorship := author_accounts,
    council := endowed_accounts.take ((num_endowed_accounts + 1) / 2),
    technical_committee :=
      endowed_accounts.take ((num_endowed_accounts + 1) / 2),
    sudo_key := some endowed_accounts.headI }

/-- The display properties map built by `get_properties`. -/
structure Properties where
  tokenSymbol : String
  tokenDecimals : Nat
  ss58Format : Nat
  deriving DecidableEq, Repr

/-- `get_properties(symbol, decimals, ss58format)`. -/
def get_properties (symbol : String) (decimals : Nat) (ss58format : Nat) :
    Properties :=
  { tokenSymbol := symbol, tokenDecimals := decimals,
    ss58Format := ss58format }

/-- `sc_service::ChainType`. -/
inductive ChainType
  | Development
  | Local
  | Live
  deriving DecidableEq, Repr

/-- `DEFAULT_PROTOCOL_ID`. -/
def DEFAULT_PROTOCOL_ID : String := "cord"

/-- `STAGING_TELEMETRY_URL`. -/
def STAGING_TELEMETRY_URL : String := "wss://telemetry.dway.io/submit/"

/-- The arguments this module passes to
`CordChainSpec::from_genesis` (the genesis-factory closure is applied, so
the built `GenesisConfig` is stored directly; the trailing
`Default::default()` extensions carry no information and are omitted).
Telemetry endpoints are `(url, verbosity)` pairs. -/
structure CordChainSpec where
  name : String
  id : String
  chain_type : ChainType
  genesis : GenesisConfig
  boot_nodes : List String
  telemetry : Option (List (String × Nat))
  protocol_id : Option String
  fork_id : Option String
  properties : Option Properties
  deriving DecidableEq, Repr

/-- `cord_development_config()`; `cord_runtime::WASM_BINARY` is passed
explicitly as the `wasm` argument. -/
def cord_development_config (wasm : Option (List Nat)) :
    Except String CordChainSpec :=
  match wasm with
  | none => Except.error ("CORD development wasm not available")
  | some wasm_binary =>
    Except.ok
      { name := "Dev. Node",
        id := "cord_dev",
        chain_type := ChainType.Development,
        genesis := cord_development_config_genesis wasm_binary,
        boot_nodes := [],
        telemetry := none,
        protocol_id := some DEFAULT_PROTOCOL_ID,
        fork_id := none,
        properties := some (get_properties ("WAY") 12 29) }

/-- `cord_local_testnet_config()`. -/
def cord_local_testnet_config (wasm : Option (List Nat)) :
    Except String CordChainSpec :=
  match wasm with
  | none => Except.error ("CORD development wasm not available")
  | some wasm_binary =>
    Except.ok
      { name := "Local",
        id := "cord_local",
        chain_type := ChainType.Local,
        genesis := cord_local_testnet_config_genesis wasm_binary,
        boot_nodes := [],
        telemetry := none,
        protocol_id := some DEFAULT_PROTOCOL_ID,
        fork_id := none,
        properties := some (get_properties ("WAY") 12 29) }

/-- `cord_staging_config()`. -/
def cord_staging_config (wasm : Option (List Nat)) :
    Except String CordChainSpec :=
  match wasm with
  | none => Except.error ("CORD development wasm not available")
  | some wasm_binary =>
    Except.ok
      { name := "CORD Staging Testnet",
        id := "cord_staging_testnet",
        chain_type := ChainType.Live,
        genesis := cord_staging_config_genesis wasm_binary,
        boot_nodes := [],
        telemetry := some [(STAGING_TELEMETRY_URL, 0)],
        protocol_id := some DEFAULT_PROTOCOL_ID,
        fork_id := none,
        properties := some (get_properties ("WAY") 12 29) }

/-- The sum of the amounts recorded for account `a` in a balances table
(occurrences compose by summation). -/
def sumBalancesFor (bals : List (Bytes × Nat)) (a : Bytes) : Nat :=
  ((bals.filter fun p => p.fst == a).map fun p => p.snd).sum

/-- The total genesis balance of account `a` in genesis record `g`. -/
def totalBalance (g : GenesisConfig) (a : Bytes) : Nat :=
  sumBalancesFor g.balances a

/-- The five role-specific keys the spec derives from one seed:
account-signing public key (the controller account bytes),
block-production (babe), finality (grandpa), liveness (im_online) and
discovery keys, all read off `get_authority_keys`. -/
def role_keys (seed : String) : List Bytes :=
  let k := get_authority_keys seed
  [k.controller, k.babe, k.grandpa, k.im_online, k.authority_discovery]

/-- Whether the byte sequence `b` occurs anywhere in the assembled genesis
record `g` (as a balance key, a registered authority, any component of a
session entry, an author, a governance member or the sudo key). -/
def occursInGenesis (g : GenesisConfig) (b : Bytes) : Bool :=
  (g.balances.any fun p => p.fst == b)
    || g.authority_manager.contains b
    || (g.session.any fun e =>
          e.fst == b || e.snd.fst == b || e.snd.snd.babe == b
            || e.snd.snd.grandpa == b || e.snd.snd.im_online == b
            || e.snd.snd.authority_discovery == b)
    || (g.extrinsic_authorship.any fun p => p.fst == b)
    || g.council.contains b
    || g.technical_committee.contains b
    || g.sudo_key == some b

theorem sumBalancesFor_append (l1 l2 : List (Bytes × Nat)) (a : Bytes) :
    sumBalancesFor (l1 ++ l2) a = sumBalancesFor l1 a + sumBalancesFor l2 a := by
  simp [sumBalancesFor, List.filter_append]

theorem sumBalancesFor_map_const (E : Nat) (l : List Bytes) (a : Bytes) :
    sumBalancesFor (l.map fun k => (k, E)) a = E * l.count a := by
  induction l with
  | nil => simp [sumBalancesFor]
  | cons x xs ih =>
    by_cases h : x = a
    · subst h
      simp [sumBalancesFor, List.filter_cons, List.count_cons] at ih ⊢
      rw [ih]; ring
    · simp [sumBalancesFor, List.filter_cons, List.count_cons, h] at ih ⊢
      have h2 : ¬ (a = x) := fun hh => h hh.symm
      simp [h2, ih]

/-- C4: in every assembled genesis record the council and
technical-committee memberships are the first `(n + 1) / 2 = ⌈n/2⌉`
accounts of the endowed-accounts sequence, in catalog order; in
particular n = 5 (development default, staging) gives 3 members. -/
theorem c4_governance_split (w : List Nat) (auths : List Authority)
    (root : Bytes) (l : List Bytes) :
    ((cord_development_genesis w auths root (some l)).council
        = l.take ((l.length + 1) / 2))
    ∧ ((cord_development_genesis w auths root (some l)).technical_committee
        = l.take ((l.length + 1) / 2))
    ∧ ((cord_development_genesis w auths root (some l)).council.length
        = (l.length + 1) / 2)
    ∧ ((cord_development_genesis w auths root none).council
        = testnet_accounts.take 3)
    ∧ ((cord_development_genesis w auths root none).council.length = 3)
    ∧ ((cord_staging_config_genesis w).council
        = staging_endowed_accounts.take 3)
    ∧ ((cord_staging_config_genesis w).council.length = 3)
    ∧ ((cord_staging_config_genesis w).technical_committee
        = (cord_staging_config_genesis w).council) := by
  refine ⟨rfl, rfl, ?_, rfl, rfl, rfl, rfl, rfl⟩
  simp [cord_development_genesis, List.length_take]
  omega

/-- C5: the authority registry and the session-key registry are built
from the same authority list, entry `i` of both coming from input tuple
`i` (so they have equal length and the account at position `i` of the
authority registry is the account of session entry `i`); for the local
testnet the registries have exactly the two entries Alice//stash then
Bob//stash. -/
theorem c5_registries_aligned (w : List Nat) (auths : List Authority)
    (root : Bytes) (eo : Option (List Bytes)) :
    ((cord_development_genesis w auths root eo).authority_manager.length
        = auths.length)
    ∧ ((cord_development_genesis w auths root eo).session.length
        = auths.length)
    ∧ (∀ i : Nat,
        ((cord_development_genesis w auths root eo).authority_manager)[i]?
          = (((cord_development_genesis w auths root eo).session)[i]?).map
              (fun e => e.fst))
    ∧ (∀ i : Nat,
        ((cord_development_genesis w auths root eo).authority_manager)[i]?
          = (auths[i]?).map (fun x => x.stash))
    ∧ ((cord_local_testnet_config_genesis w).authority_manager
        = [get_account_id_from_seed ("Alice//stash"),
           get_account_id_from_seed ("Bob//stash")])
    ∧ ((cord_local_testnet_config_genesis w).session.map (fun e => e.fst)
        = [get_account_id_from_seed ("Alice//stash"),
           get_account_id_from_seed ("Bob//stash")])
    ∧ ((cord_staging_config_genesis w).authority_manager.length = 3)
    ∧ ((cord_staging_config_genesis w).session.length = 3)
    ∧ (∀ i : Nat,
        ((cord_staging_config_genesis w).authority_manager)[i]?
          = (((cord_staging_config_genesis w).session)[i]?).map
              (fun e => e.fst)) := by
  refine ⟨?_, ?_, ?_, ?_, rfl, rfl, rfl, rfl, ?_⟩
  · simp [cord_development_genesis]
  · simp [cord_development_genesis]
  · intro i
    simp [cord_development_genesis, List.getElem?_map]
    rfl
  · intro i
    simp [cord_development_genesis, List.getElem?_map]
  · intro i
    have h : (cord_staging_config_genesis w).authority_manager
        = (cord_staging_config_genesis w).session.map (fun e => e.fst) := rfl
    rw [h, List.getElem?_map]

/-- C6, counterexample: in the development profile Alice's stash account
is both in the endowed list and the sole authority operator, yet its
total genesis balance is `ENDOWMENT` alone, not `ENDOWMENT + STASH` (the
development assembler credits no `STASH`). -/
theorem c6_dev_not_additive_counterexample :
    ((get_account_id_from_seed ("Alice//stash")) ∈ testnet_accounts)
    ∧ ((cord_development_config_genesis []).authority_manager
        = [get_account_id_from_seed ("Alice//stash")])
    ∧ totalBalance (cord_development_config_genesis [])
        (get_account_id_from_seed ("Alice//stash")) = ENDOWMENT_DEV
    ∧ ENDOWMENT_DEV ≠ ENDOWMENT_DEV + STASH := by
  refine ⟨by decide, by decide, by decide, by decide⟩

/-- C6, amended: balances compose by summation over the account (never by
overwrite): in the staging record every account's total is `ENDOWMENT`
times its occurrences in the endowed list plus `STASH` times its
occurrences as an authority operator (so an account in both once would
total `ENDOWMENT + STASH`); in the development record the total is
`ENDOWMENT` times the occurrences in the endowed list plus the
credit-treasury list, with no `STASH` contribution. -/
theorem c6_balances_sum_amended (w : List Nat) (a : Bytes)
    (auths : List Authority) (root : Bytes) (l : List Bytes) :
    (totalBalance (cord_staging_config_genesis w) a
      = ENDOWMENT_STAGING * staging_endowed_accounts.count a
        + STASH * ((staging_authorities.map fun x => x.stash).count a))
    ∧ (totalBalance (cord_development_genesis w auths root (some l)) a
      = ENDOWMENT_DEV * l.count a
        + ENDOWMENT_DEV * ([creditTreasuryAccount].count a)) := by
  constructor
  · have h1 : totalBalance (cord_staging_config_genesis w) a
        = sumBalancesFor
            ((staging_endowed_accounts.map fun k => (k, ENDOWMENT_STAGING))
              ++ ((staging_authorities.map fun x => x.stash).map
                    fun k => (k, STASH))) a := rfl
    rw [h1, sumBalancesFor_append, sumBalancesFor_map_const,
      sumBalancesFor_map_const]
  · have h2 : totalBalance (cord_development_genesis w auths root (some l)) a
        = sumBalancesFor
            ((l.map fun k => (k, ENDOWMENT_DEV))
              ++ ([creditTreasuryAccount].map fun k => (k, ENDOWMENT_DEV))) a :=
      rfl
    rw [h2, sumBalancesFor_append, sumBalancesFor_map_const,
      sumBalancesFor_map_const]

/-- C7: each profile designates exactly one sudo account: the staging
record's sudo key is the first endowed account (a fixed literal), the
development-genesis assembler uses the explicitly supplied root account,
and both the development and the local-testnet profiles pass Alice's
account as that root. -/
theorem c7_sudo_accounts (w : List Nat) (auths : List Authority)
    (root : Bytes) (eo : Option (List Bytes)) :
    ((cord_staging_config_genesis w).sudo_key
        = some staging_endowed_accounts.headI)
    ∧ (staging_endowed_accounts.headI
        = Bytes.fromHex
            ("903c379067968d241b2293784ff353d533837f77bcb72154e278ed06e1026a4b"))
    ∧ ((cord_development_genesis w auths root eo).sudo_key = some root)
    ∧ ((cord_development_config_genesis w).sudo_key
        = some (get_account_id_from_seed ("Alice")))
    ∧ ((cord_local_testnet_config_genesis w).sudo_key
        = some (get_account_id_from_seed ("Alice"))) := by
  refine ⟨rfl, rfl, rfl, rfl, rfl⟩

/-- C8, counterexample: when the runtime blob is unavailable the staging
and local-testnet factories fail with the message
"CORD development wasm not available", which does not name the staging or
local profile (neither "staging"/"Staging" nor "local"/"Local" occurs in
it) — it names the development profile regardless of the requester. -/
theorem c8_error_message_counterexample :
    (cord_staging_config none
        = Except.error ("CORD development wasm not available"))
    ∧ (cord_local_testnet_config none
        = Except.error ("CORD development wasm not available"))
    ∧ ¬ (("staging").toList
          <:+: ("CORD development wasm not available").toList)
    ∧ ¬ (("Staging").toList
          <:+: ("CORD development wasm not available").toList)
    ∧ ¬ (("local").toList
          <:+: ("CORD development wasm not available").toList)
    ∧ ¬ (("Local").toList
          <:+: ("CORD development wasm not available").toList) := by
  refine ⟨rfl, rfl, by decide, by decide, by decide, by decide⟩

/-- C8, amended: every profile factory fails (producing no genesis
record) when the runtime code blob is unavailable, but all three return
the same fixed error message "CORD development wasm not available"; the
message names the development profile only, not the requesting one. -/
theorem c8_error_fixed_message_amended (w : List Nat) :
    (cord_development_config none
        = Except.error ("CORD development wasm not available"))
    ∧ (cord_local_testnet_config none
        = Except.error ("CORD development wasm not available"))
    ∧ (cord_staging_config none
        = Except.error ("CORD development wasm not available"))
    ∧ ((cord_development_config (some w)).isOk = true)
    ∧ ((cord_local_testnet_config (some w)).isOk = true)
    ∧ ((cord_staging_config (some w)).isOk = true) := by
  refine ⟨rfl, rfl, rfl, rfl, rfl, rfl⟩

/-- C9: `session_keys` is a pure projection packaging the four role keys
in the fixed order babe (block-production), grandpa (finality), im_online
(liveness), authority_discovery (discovery), and every registered bundle
is rebuilt exactly as `session_keys` of the corresponding authority
record's four role keys, in both assemblers. -/
theorem c9_session_bundle_projection (b g i a : Bytes) (w : List Nat)
    (auths : List Authority) (root : Bytes) (eo : Option (List Bytes)) :
    ((session_keys b g i a).babe = b)
    ∧ ((session_keys b g i a).grandpa = g)
    ∧ ((session_keys b g i a).im_online = i)
    ∧ ((session_keys b g i a).authority_discovery = a)
    ∧ ((cord_development_genesis w auths root eo).session
        = auths.map fun x => (x.stash, x.stash,
            session_keys x.babe x.grandpa x.im_online x.authority_discovery))
    ∧ ((cord_staging_config_genesis w).session
        = staging_authorities.map fun x => (x.stash, x.stash,
            session_keys x.babe x.grandpa x.im_online x.authority_discovery)) := by
  refine ⟨rfl, rfl, rfl, rfl, rfl, rfl⟩

/-- C10: every session-registry entry carries the operator (stash)
account in both its stash and controller positions, and the separately
derived controller account (tuple position 1) is dead: replacing every
controller by an arbitrary account leaves the assembled development
genesis record unchanged, and none of the three hard-coded staging
controller literals occurs anywhere in the staging record. -/
theorem c10_controller_account_unused (w : List Nat)
    (auths : List Authority) (root : Bytes) (eo : Option (List Bytes))
    (c : Bytes) :
    (cord_development_genesis w
        (auths.map fun x => { x with controller := c }) root eo
      = cord_development_genesis w auths root eo)
    ∧ ((cord_development_genesis w auths root eo).session.map (fun e => e.fst)
        = (cord_development_genesis w auths root eo).session.map
            (fun e => e.snd.fst))
    ∧ ((cord_staging_config_genesis w).session.map (fun e => e.fst)
        = (cord_staging_config_genesis w).session.map (fun e => e.snd.fst))
    ∧ (occursInGenesis (cord_staging_config_genesis w)
        (Bytes.fromHex
          ("e41d2833b0b2f629e52a1bc1ace3079c395673bab26a14626b52c132b1fb5f1c"))
        = false)
    ∧ (occursInGenesis (cord_staging_config_genesis w)
        (Bytes.fromHex
          ("186f6e121c08e7d2951f086cec0d6cf90e5b964a321175914ab5cb938cb51006"))
        = false)
    ∧ (occursInGenesis (cord_staging_config_genesis w)
        (Bytes.fromHex
          ("c227e25885b199a75429484278681c276062e6b0639c75aba6d7eba622ae773d"))
        = false) := by
  refine ⟨?_, ?_, rfl, rfl, rfl, rfl⟩
  · simp [cord_development_genesis, List.map_map]
  · simp [cord_development_genesis, List.map_map]

/-- C1, counterexample: in the development-profile genesis record every
balances entry carries exactly `ENDOWMENT`, and the total credited to
Alice's stash account is `ENDOWMENT` alone; the additional `STASH`
(`100 * WAY`, a positive amount) the claim asserts is not there. -/
theorem c1_dev_no_extra_stash_counterexample :
    ((cord_development_config_genesis []).balances.all
        fun p => p.snd == ENDOWMENT_DEV) = true
    ∧ totalBalance (cord_development_config_genesis [])
        (get_account_id_from_seed ("Alice//stash")) = ENDOWMENT_DEV
    ∧ ENDOWMENT_DEV ≠ ENDOWMENT_DEV + STASH := by
  refine ⟨by decide, by decide, by decide⟩

/-- C1, amended: for the development profile (authority seed "Alice", no
endowed-accounts override) the genesis balances table is exactly the 5
canonical testnet accounts each with `ENDOWMENT`, plus the fixed
credit-treasury account with `ENDOWMENT`; no additional `STASH` amount is
credited to anyone (the development assembler adds no stash balances). -/
theorem c1_dev_balances_amended (w : List Nat) :
    (cord_development_config_genesis w).balances
      = [(get_account_id_from_seed ("Alice"), ENDOWMENT_DEV),
         (get_account_id_from_seed ("Bob"), ENDOWMENT_DEV),
         (get_account_id_from_seed ("Charlie"), ENDOWMENT_DEV),
         (get_account_id_from_seed ("Alice//stash"), ENDOWMENT_DEV),
         (get_account_id_from_seed ("Bob//stash"), ENDOWMENT_DEV),
         (creditTreasuryAccount, ENDOWMENT_DEV)] := by
  rfl

/-- C2, counterexample: for seed "Alice" the five role keys are not
pairwise distinct: block-production (`BabeId`), liveness (`ImOnlineId`),
discovery (`AuthorityDiscoveryId`) and the account-signing key are all
the sr25519 public key of the same derivation string, hence
byte-identical. -/
theorem c2_role_keys_not_distinct_counterexample :
    ¬ (role_keys ("Alice")).Nodup := by
  decide

/-- C2, amended: for every seed, the account-signing, block-production,
liveness and discovery keys coincide (all are the sr25519 key of the same
derivation string); only the finality key is separated, being derived
under the distinct ed25519 scheme. -/
theorem c2_role_keys_amended (s : String) :
    ((get_authority_keys s).controller = (get_authority_keys s).babe)
    ∧ ((get_authority_keys s).babe = (get_authority_keys s).im_online)
    ∧ ((get_authority_keys s).im_online
        = (get_authority_keys s).authority_discovery)
    ∧ ((get_authority_keys s).grandpa ≠ (get_authority_keys s).babe) := by
  refine ⟨rfl, rfl, rfl, ?_⟩
  simp [get_authority_keys, get_from_seed]

/-- C3, counterexample: the staging genesis record's extrinsic-authorship
catalog does contain accounts derived from textual seeds (the
`author_accounts()` list, derived from "Alice", "Bob", "Charlie"),
refuting "no account in the staging genesis record is derived from a
textual seed". -/
theorem c3_staging_seed_author_counterexample :
    ((cord_staging_config_genesis []).extrinsic_authorship.any
        fun p => Bytes.isSeedDerived p.fst) = true
    ∧ (cord_staging_config_genesis []).extrinsic_authorship.head?
        = some (get_account_id_from_seed ("Alice"), ()) := by
  refine ⟨by decide, rfl⟩

/-- C3, amended: in the staging genesis record the authorities, the
session-key registry, the endowed balances, the governance memberships
and the sudo key all come from hard-coded public-key byte literals (none
is seed-derived), but the extrinsic-authorship authors are the three
seed-derived testnet accounts Alice, Bob and Charlie. -/
theorem c3_staging_literals_amended (w : List Nat) :
    ((cord_staging_config_genesis w).authority_manager.all
        fun b => !(Bytes.isSeedDerived b)) = true
    ∧ ((cord_staging_config_genesis w).balances.all
        fun p => !(Bytes.isSeedDerived p.fst)) = true
    ∧ ((cord_staging_config_genesis w).session.all
        fun e => !(Bytes.isSeedDerived e.fst) && !(Bytes.isSeedDerived e.snd.fst)
          && !(Bytes.isSeedDerived e.snd.snd.babe)
          && !(Bytes.isSeedDerived e.snd.snd.grandpa)
          && !(Bytes.isSeedDerived e.snd.snd.im_online)
          && !(Bytes.isSeedDerived e.snd.snd.authority_discovery)) = true
    ∧ ((cord_staging_config_genesis w).council.all
        fun b => !(Bytes.isSeedDerived b)) = true
    ∧ ((cord_staging_config_genesis w).technical_committee.all
        fun b => !(Bytes.isSeedDerived b)) = true
    ∧ ((cord_staging_config_genesis w).sudo_key.all
        fun b => !(Bytes.isSeedDerived b)) = true
    ∧ (cord_staging_config_genesis w).extrinsic_authorship.map (fun p => p.fst)
        = [get_account_id_from_seed ("Alice"),
           get_account_id_from_seed ("Bob"),
           get_account_id_from_seed ("Charlie")]
    ∧ ((cord_staging_config_genesis w).extrinsic_authorship.all
        fun p => Bytes.isSeedDerived p.fst) = true := by
  refine ⟨rfl, rfl, rfl, rfl, rfl, rfl, rfl, rfl⟩
